import Mathlib

/-!
Verification development for the `gradio-rerun-viewer` repository.

The repository is a Gradio custom component wrapping the Rerun viewer:
* `backend/gradio_rerun/events.py` — dataclasses for selection items and
  the event-payload classes `SelectionChange`, `TimeUpdate`, `TimelineChange`,
  plus the JSON parser `_selection_item_from_json`;
* `backend/gradio_rerun/rerun.py` — the `Rerun` component class with its
  `postprocess` method and a duplicate copy of the dataclasses and of
  `_selection_item_from_json`;
* `demo/app.py` — a demo app with the generator `streaming_repeated_blur`.

We shallow-embed the Python code.  JSON payloads (what `json.loads`
produces: dicts with string keys, lists, strings, numbers, booleans and
`None`) are modelled by the inductive type `Json`; Python exceptions are
modelled by the error type `PyError` through `Except`.
-/

/-- A Python value as decoded from JSON: `dict` (string keys), `list`,
`str`, number, `bool`, or `None`.  Numbers are modelled as integers;
no claim depends on float behaviour. -/
inductive Json where
  | null : Json
  | bool (b : Bool) : Json
  | num (n : Int) : Json
  | str (s : String) : Json
  | arr (elems : List Json) : Json
  | obj (fields : List (String × Json)) : Json
deriving Repr

/-- Python exceptions that the embedded code can raise. -/
inductive PyError where
  /-- `KeyError` from `d[k]` on a dict missing the string key `k`. -/
  | keyError (k : String) : PyError
  /-- `KeyError` from subscripting a string-keyed dict with the bare
  builtin class `type` (the source writes `json[type]`, not
  `json["type"]`): the class `type` is never a key of a JSON dict. -/
  | keyErrorBuiltinType : PyError
  /-- `KeyError` from `d[i]` on a dict with an integer index. -/
  | keyErrorInt (i : Nat) : PyError
  /-- `IndexError` from an out-of-range sequence index. -/
  | indexError : PyError
  /-- `TypeError`, e.g. subscripting a non-subscriptable value. -/
  | typeError (msg : String) : PyError
  /-- `NotImplementedError` with its message. -/
  | notImplementedError (msg : String) : PyError
  /-- `FileNotFoundError` from `Path(p).stat()` on a missing file. -/
  | fileNotFoundError (p : String) : PyError
deriving Repr, DecidableEq

/-- Python subscript `v[k]` with a string key `k`: dict lookup
(`KeyError` when missing); lists and strings reject string indices with
`TypeError`; other values are not subscriptable. -/
def pySubscriptStr (v : Json) (k : String) : Except PyError Json :=
  match v with
  | Json.obj fields =>
      match fields.lookup k with
      | some x => Except.ok x
      | none => Except.error (PyError.keyError k)
  | Json.arr _ => Except.error (PyError.typeError "list indices must be integers or slices, not str")
  | Json.str _ => Except.error (PyError.typeError "string indices must be integers")
  | _ => Except.error (PyError.typeError "object is not subscriptable")

/-- Python subscript `v[i]` with an integer index `i ≥ 0`: list and
string indexing (`IndexError` out of range; string indexing yields a
one-character string), `KeyError` on dicts, `TypeError` otherwise. -/
def pyIndex (v : Json) (i : Nat) : Except PyError Json :=
  match v with
  | Json.arr elems =>
      match elems.get? i with
      | some x => Except.ok x
      | none => Except.error PyError.indexError
  | Json.str s =>
      match s.data.get? i with
      | some c => Except.ok (Json.str (String.mk [c]))
      | none => Except.error PyError.indexError
  | Json.obj _ => Except.error (PyError.keyErrorInt i)
  | _ => Except.error (PyError.typeError "object is not subscriptable")

/-- Python `v.get(k, None)` on a JSON dict: the value when the key is
present, otherwise `None`.  In the embedded code it is only ever reached
after a successful `v[k']` subscript, so `v` is a dict there; on non-dict
values we return `None` (Python would raise `AttributeError`, but that
branch is unreachable in the source being embedded). -/
def jsonGet (v : Json) (k : String) : Json :=
  match v with
  | Json.obj fields => (fields.lookup k).getD Json.null
  | _ => Json.null

/-- Python `v == lit` between a JSON-decoded value and a string literal:
true exactly when `v` is that string (values of other types compare
unequal to a string without error). -/
def jsonEqStr (v : Json) (lit : String) : Bool :=
  match v with
  | Json.str s => s == lit
  | _ => false

/-!  The selection dataclasses of `events.py` (lines 9–55), duplicated
verbatim in `rerun.py` (lines 15–57).  Field values are whatever the
JSON held, so they are `Json`; the `position` field is `None` or a
3-tuple. -/

/-- `EntitySelection` dataclass: selected an entity or an instance of an
entity. -/
structure EntitySelection where
  entity_path : Json
  instance_id : Json
  view_name : Json
  position : Option (Json × Json × Json)
deriving Repr

/-- `ViewSelection` dataclass: selected a view. -/
structure ViewSelection where
  view_id : Json
  view_name : Json
deriving Repr

/-- `ContainerSelection` dataclass: selected a container. -/
structure ContainerSelection where
  container_id : Json
  container_name : Json
deriving Repr

/-- `SelectionItem = EntitySelection | ViewSelection | ContainerSelection`. -/
inductive SelectionItem where
  | entity (e : EntitySelection) : SelectionItem
  | view (v : ViewSelection) : SelectionItem
  | container (c : ContainerSelection) : SelectionItem
deriving Repr

/-- The `kind` property of `EntitySelection`: the constant `"entity"`. -/
def EntitySelection.kind (_ : EntitySelection) : String := "entity"

/-- The `kind` property of `ViewSelection`: the constant `"view"`. -/
def ViewSelection.kind (_ : ViewSelection) : String := "view"

/-- The `kind` property of `ContainerSelection`: the constant `"container"`. -/
def ContainerSelection.kind (_ : ContainerSelection) : String := "container"

/-- The `kind` of a `SelectionItem`, via the `kind` property of the
underlying dataclass. -/
def SelectionItem.kind : SelectionItem → String
  | SelectionItem.entity e => e.kind
  | SelectionItem.view v => v.kind
  | SelectionItem.container c => c.kind

/-- The position expression of the entity branch of
`_selection_item_from_json`:
`(position[0], position[1], position[2]) if position is not None else
None`, factored into a helper.  The three subscripts are evaluated left
to right and the first failure propagates. -/
def positionTuple (position : Json) : Except PyError (Option (Json × Json × Json)) :=
  match position with
  | Json.null => pure Option.none
  | p => do
      let p0 ← pyIndex p 0
      let p1 ← pyIndex p 1
      let p2 ← pyIndex p 2
      pure (Option.some (p0, p1, p2))

namespace EventsPy

/-- `_selection_item_from_json` as defined in
`backend/gradio_rerun/events.py`, lines 59–73.

Notes on fidelity:
* each of the three `if json["type"] == ...:` statements subscripts the
  dict again; after the first subscript succeeds the later ones return
  the same value, so a single bind is equivalent;
* in the entity branch the constructor arguments are evaluated in order:
  `json["entity_path"]` (may raise `KeyError`) before the `position`
  tuple (whose three subscripts may raise `IndexError`/`TypeError`/…);
  `position = json.get("position", None)` itself runs before both;
* the final line reads `raise NotImplementedError(f"selection item kind
  {json[type]} is not handled")` — the subscript key is the bare builtin
  class `type`, which is never a key of a string-keyed JSON dict, so
  evaluating the f-string raises `KeyError` and the `NotImplementedError`
  is never constructed. -/
def _selection_item_from_json (json : Json) : Except PyError SelectionItem := do
  let ty ← pySubscriptStr json "type"
  if jsonEqStr ty "entity" then do
    let position := jsonGet json "position"
    let ep ← pySubscriptStr json "entity_path"
    let pos ← positionTuple position
    pure (SelectionItem.entity
      { entity_path := ep
        instance_id := jsonGet json "instance_id"
        view_name := jsonGet json "view_name"
        position := pos })
  else if jsonEqStr ty "view" then do
    let vid ← pySubscriptStr json "view_id"
    let vname ← pySubscriptStr json "view_name"
    pure (SelectionItem.view { view_id := vid, view_name := vname })
  else if jsonEqStr ty "container" then do
    let cid ← pySubscriptStr json "container_id"
    let cname ← pySubscriptStr json "container_name"
    pure (SelectionItem.container { container_id := cid, container_name := cname })
  else
    Except.error PyError.keyErrorBuiltinType

end EventsPy

namespace RerunPy

/-- `_selection_item_from_json` as defined in
`backend/gradio_rerun/rerun.py`, lines 64–79: a verbatim duplicate of
the copy in `events.py` (the dataclasses it constructs are duplicated
there too, with identical fields, so we reuse the shared `SelectionItem`
model to compare field values).  The same fidelity notes apply,
including the `json[type]` subscript with the bare builtin `type` on the
final `raise` line. -/
def _selection_item_from_json (json : Json) : Except PyError SelectionItem := do
  let ty ← pySubscriptStr json "type"
  if jsonEqStr ty "entity" then do
    let position := jsonGet json "position"
    let ep ← pySubscriptStr json "entity_path"
    let pos ← positionTuple position
    pure (SelectionItem.entity
      { entity_path := ep
        instance_id := jsonGet json "instance_id"
        view_name := jsonGet json "view_name"
        position := pos })
  else if jsonEqStr ty "view" then do
    let vid ← pySubscriptStr json "view_id"
    let vname ← pySubscriptStr json "view_name"
    pure (SelectionItem.view { view_id := vid, view_name := vname })
  else if jsonEqStr ty "container" then do
    let cid ← pySubscriptStr json "container_id"
    let cname ← pySubscriptStr json "container_name"
    pure (SelectionItem.container { container_id := cid, container_name := cname })
  else
    Except.error PyError.keyErrorBuiltinType

end RerunPy

/-!  Event-payload classes of `events.py`.  Each subclasses Gradio's
`EventData`; the `super().__init__(target, data)` call only stores the
framework target and raw payload, so the embedding keeps just the fields
the class itself computes. -/

/-- `SelectionChange` (events.py lines 76–82): its `__init__` sets
`self.items = [_selection_item_from_json(item) for item in data]`.
The list comprehension evaluates the parser on each element in order and
propagates the first exception, which `mapM` models. -/
def SelectionChange.items (data : List Json) : Except PyError (List SelectionItem) :=
  data.mapM EventsPy._selection_item_from_json

/-- `TimeUpdate` (events.py lines 85–89): `self.time = data`, the raw
payload stored unchanged. -/
structure TimeUpdate where
  time : Json
deriving Repr

/-- The body of `TimeUpdate.__init__` applied to the payload. -/
def TimeUpdate.fromData (data : Json) : TimeUpdate :=
  { time := data }

/-- `TimelineChange` (events.py lines 91–96): `self.timeline =
data["timeline"]` and `self.time = data["time"]`. -/
structure TimelineChange where
  timeline : Json
  time : Json
deriving Repr

/-- The body of `TimelineChange.__init__` applied to the payload: the
two dict subscripts in source order, each able to raise `KeyError`. -/
def TimelineChange.fromData (data : Json) : Except PyError TimelineChange := do
  let tl ← pySubscriptStr data "timeline"
  let t ← pySubscriptStr data "time"
  pure { timeline := tl, time := t }

/-!  The `Rerun` component (rerun.py).  `postprocess` receives
`list[Path | str] | Path | str | bytes` (and in fact also `None`).
`pathlib.Path` values are modelled by their normalized string
representation, so `str(file)` on a `Path` is the carried string. -/

/-- A `Path` or `str` element of a `postprocess` value. -/
inductive PathOrStr where
  | path (p : String) : PathOrStr
  | str (s : String) : PathOrStr
deriving Repr, DecidableEq

/-- Python `str(file)` for a `Path | str` value. -/
def PathOrStr.asStr : PathOrStr → String
  | PathOrStr.path p => p
  | PathOrStr.str s => s

/-- A value passed to `Rerun.postprocess`: `None`, a `bytes` blob
(modelled as a list of byte values), a single `Path | str`, or a list of
them.  The source dispatches on exactly these shapes: `value is None`,
`isinstance(value, bytes)`, then `isinstance(value, list)` with
non-lists wrapped as `[value]`. -/
inductive PValue where
  | none : PValue
  | bytes (b : List Nat) : PValue
  | single (f : PathOrStr) : PValue
  | list (xs : List PathOrStr) : PValue
deriving Repr

/-- Split a character list on `'/'` (the components of a POSIX path,
including empty ones around repeated or leading slashes). -/
def splitOnSlash : List Char → List (List Char)
  | [] => [[]]
  | c :: rest =>
      let r := splitOnSlash rest
      if c == '/' then [] :: r
      else
        match r with
        | [] => [[c]]
        | h :: t => (c :: h) :: t

/-- Python `s.startswith(pre)`. -/
def pyStartsWith (s pre : String) : Bool :=
  pre.data.isPrefixOf s.data

/-- `pathlib.Path(p).name`: the last path component, where empty and
`"."` components are dropped (pathlib discards them when parsing), and
`""` when no component remains. -/
def pathName (p : String) : String :=
  ((((splitOnSlash p.data).filter
      (fun comp => !(comp.isEmpty || comp == ['.']))).getLast?).map String.mk).getD ""

/-- Gradio's `FileData` with the three fields `postprocess` sets;
`orig_name` and `size` default to `None` when not passed. -/
structure FileData where
  path : String
  orig_name : Option String
  size : Option Nat
deriving Repr, DecidableEq

/-- An entry of the `RerunData` root list: `FileData | str`, where the
`str` alternative is a URL Rerun opens from a remote server. -/
inductive FileEntry where
  | file (fd : FileData) : FileEntry
  | url (s : String) : FileEntry
deriving Repr, DecidableEq

/-- `RerunData(GradioRootModel)` (rerun.py lines 91–98): a root model
wrapping `root: list[FileData | str]`. -/
structure RerunData where
  root : List FileEntry
deriving Repr, DecidableEq

/-- What `postprocess` returns: a `RerunData`, or the raw bytes when
streaming. -/
inductive PostResult where
  | data (d : RerunData) : PostResult
  | stream (b : List Nat) : PostResult
deriving Repr

/-- The pieces of the outside world `postprocess` touches: the
filesystem (the size `Path(p).stat().st_size` would report, `none` when
the file does not exist) and Gradio's
`processing_utils.save_bytes_to_cache(data, file_name, cache_dir)`,
which writes the bytes into the cache directory and returns the new
file's path. -/
structure Env where
  fs : String → Option Nat
  saveBytesToCache : List Nat → String → String → String

/-- The fields of the `Rerun` component that `postprocess` and
`check_streamable` read: the `streaming` flag set in `__init__` and the
framework-provided `GRADIO_CACHE` directory. -/
structure Rerun where
  streaming : Bool
  GRADIO_CACHE : String
deriving Repr

/-- The closure `is_url` defined inside `postprocess` (rerun.py lines
206–209): a `Path` is never a URL; a string is a URL when it starts with
`"http://"` or `"https://"`. -/
def is_url (input : PathOrStr) : Bool :=
  match input with
  | PathOrStr.path _ => false
  | PathOrStr.str s => pyStartsWith s "http://" || pyStartsWith s "https://"

/-- One element of the comprehension building the root list (rerun.py
lines 211–222): `FileData(path=str(file), orig_name=Path(file).name,
size=Path(file).stat().st_size) if not is_url(file) else file`.  The
`stat` call raises `FileNotFoundError` when the file does not exist. -/
def postprocessEntry (env : Env) (file : PathOrStr) : Except PyError FileEntry :=
  if !is_url file then
    match env.fs file.asStr with
    | some sz =>
        Except.ok (FileEntry.file
          { path := file.asStr, orig_name := Option.some (pathName file.asStr), size := Option.some sz })
    | Option.none => Except.error (PyError.fileNotFoundError file.asStr)
  else
    Except.ok (FileEntry.url file.asStr)

/-- `Rerun.postprocess` (rerun.py lines 183–222):
`None ↦ RerunData(root=[])`; bytes are returned unchanged when
`self.streaming`, else saved to the cache as an `"rrd"` file and wrapped
in a single-`FileData` root; any other value is wrapped into a list if
it is not one already and each element becomes a `FileData` or is kept
as a URL string. -/
def Rerun.postprocess (self : Rerun) (env : Env) (value : PValue) : Except PyError PostResult :=
  match value with
  | PValue.none => Except.ok (PostResult.data { root := [] })
  | PValue.bytes b =>
      if self.streaming then
        Except.ok (PostResult.stream b)
      else
        Except.ok (PostResult.data
          { root := [FileEntry.file
              { path := env.saveBytesToCache b "rrd" self.GRADIO_CACHE
                orig_name := Option.none, size := Option.none }] })
  | PValue.single f => do
      let root ← [f].mapM (postprocessEntry env)
      pure (PostResult.data { root := root })
  | PValue.list xs => do
      let root ← xs.mapM (postprocessEntry env)
      pure (PostResult.data { root := root })

/-- `Rerun.check_streamable` (rerun.py lines 249–250). -/
def Rerun.check_streamable (self : Rerun) : Bool :=
  self.streaming

/-!  The demo generator `streaming_repeated_blur` (demo/app.py lines
24–60).  Its externally observable actions (recording-stream calls and
`yield`s) are modelled as a trace.  `cv2.GaussianBlur(·, (5, 5), 0)` is
an external function, taken as the parameter `gaussianBlur`; the chunk
bytes produced by `stream.read()` and the `time.sleep(0.1)` call have no
bearing on the trace shape and are not recorded. -/

/-- One observable action of the demo generator, over an abstract image
type `Img`. -/
inductive DemoEvent (Img : Type) where
  | sendBlueprint : DemoEvent Img
  | setTime (sequence : Nat) : DemoEvent Img
  | logOriginal (img : Img) : DemoEvent Img
  | logBlurred (img : Img) : DemoEvent Img
  | yieldChunk : DemoEvent Img
  | flush : DemoEvent Img
deriving Repr

/-- `gr.Error(message)`, the host framework's user-facing error. -/
structure GrError where
  message : String
deriving Repr, DecidableEq

/-- `streaming_repeated_blur` from demo/app.py: after creating the
recording and its binary stream (no observable action), the generator
raises `gr.Error("Must provide an image to blur.")` when `img is None`;
otherwise it sends the blueprint, logs the original image and yields,
then for `i in range(100)` blurs once more (so iteration `i` logs the
`(i+1)`-fold blur) and yields, and finally flushes and yields the tail.
A Python generator runs lazily, so the error is raised on the first
`next()`, before any chunk has been yielded; the error result of this
embedding accordingly carries no trace. -/
def streaming_repeated_blur {Img : Type} (gaussianBlur : Img → Img) (img : Option Img) :
    Except GrError (List (DemoEvent Img)) :=
  match img with
  | Option.none => Except.error { message := "Must provide an image to blur." }
  | Option.some img0 =>
      Except.ok
        ([DemoEvent.sendBlueprint, DemoEvent.setTime 0, DemoEvent.logOriginal img0,
          DemoEvent.yieldChunk]
          ++ ((List.range 100).map (fun i =>
              [DemoEvent.setTime i, DemoEvent.logBlurred (gaussianBlur^[i + 1] img0),
                DemoEvent.yieldChunk])).flatten
          ++ [DemoEvent.flush, DemoEvent.yieldChunk])

/-- The list a `postprocess` value is turned into when it is neither
`None` nor bytes (rerun.py lines 203–204): a non-list `Path | str`
value is wrapped as `[value]`, a list is kept. -/
def wrapValue : PValue → Option (List PathOrStr)
  | PValue.single f => Option.some [f]
  | PValue.list xs => Option.some xs
  | _ => Option.none

/-!  Helper lemmas. -/

/-- Unfold a successful `Except` bind into its two successful stages. -/
theorem except_bind_ok {ε α β : Type} {m : Except ε α} {k : α → Except ε β} {b : β}
    (h : m >>= k = Except.ok b) : ∃ a, m = Except.ok a ∧ k a = Except.ok b := by
  cases m with
  | error e => simp [Bind.bind, Except.bind] at h
  | ok a => exact ⟨a, rfl, by simpa [Bind.bind, Except.bind] using h⟩

/-- A subscript that succeeded is also what `.get(k, None)` returns. -/
theorem jsonGet_eq_of_subscript {json : Json} {k : String} {v : Json}
    (h : pySubscriptStr json k = Except.ok v) : jsonGet json k = v := by
  cases json <;> simp [pySubscriptStr] at h
  case obj fields =>
    cases hl : fields.lookup k with
    | none => rw [hl] at h; simp at h
    | some x =>
        rw [hl] at h
        simp at h
        simp [jsonGet, hl, h]

/-- A JSON value that compares equal to a string literal under Python
`==` is that string. -/
theorem eq_str_of_jsonEqStr {ty : Json} {s : String} (h : jsonEqStr ty s = true) :
    ty = Json.str s := by
  cases ty <;> simp_all [jsonEqStr]

/-- The root-list comprehension of `postprocess` over a list all of
whose non-URL entries name existing files: it succeeds and sends each
element to its `FileData`-or-URL entry. -/
theorem mapM_postprocessEntry (env : Env) :
    ∀ (xs : List PathOrStr),
      (∀ f ∈ xs, is_url f = false → (env.fs f.asStr).isSome) →
      xs.mapM (postprocessEntry env)
        = Except.ok (xs.map (fun f =>
            if is_url f then FileEntry.url f.asStr
            else FileEntry.file
              { path := f.asStr
                orig_name := Option.some (pathName f.asStr)
                size := env.fs f.asStr })) := by
  intro xs
  induction xs with
  | nil => intro _; rfl
  | cons f fs ih =>
      intro h
      have hf := h f (List.mem_cons_self f fs)
      have hfs : ∀ g ∈ fs, is_url g = false → (env.fs g.asStr).isSome :=
        fun g hg => h g (List.mem_cons_of_mem f hg)
      rw [List.mapM_cons, ih hfs]
      by_cases hu : is_url f
      · simp [postprocessEntry, hu, Bind.bind, Except.bind, pure, Except.pure]
      · rw [Bool.not_eq_true] at hu
        obtain ⟨sz, hsz⟩ := Option.isSome_iff_exists.mp (hf hu)
        simp [postprocessEntry, hu, hsz, Bind.bind, Except.bind, pure, Except.pure]

/-- A `mapM` over `Except` in which every element succeeds: the result
list exists, has the same length, and is the elementwise image. -/
theorem mapM_ok_of_forall_ok {ε α β : Type} (f : α → Except ε β) :
    ∀ (l : List α), (∀ a ∈ l, ∃ b, f a = Except.ok b) →
      ∃ bs, l.mapM f = Except.ok bs ∧ bs.length = l.length ∧
        ∀ (i : Nat) (h1 : i < l.length) (h2 : i < bs.length),
          f (l.get ⟨i, h1⟩) = Except.ok (bs.get ⟨i, h2⟩) := by
  intro l
  induction l with
  | nil =>
      intro _
      exact ⟨[], rfl, rfl, fun i h1 _ => absurd h1 (Nat.not_lt_zero i)⟩
  | cons a l ih =>
      intro h
      obtain ⟨b, hb⟩ := h a (List.mem_cons_self a l)
      obtain ⟨bs, hbs, hlen, hget⟩ := ih (fun x hx => h x (List.mem_cons_of_mem a hx))
      refine ⟨b :: bs, ?_, by simpa using hlen, ?_⟩
      · rw [List.mapM_cons, hb, hbs]; rfl
      · intro i h1 h2
        cases i with
        | zero => exact hb
        | succ i => exact hget i (Nat.lt_of_succ_lt_succ h1) (Nat.lt_of_succ_lt_succ h2)

/-!  Theorems settling the claims. -/

/-- C1 (code bug): on a selection-item object whose `"type"` field is
present but unhandled, the parser does not raise the intended
`NotImplementedError`: the f-string on the `raise` line subscripts the
dict with the bare builtin `type` (source bug: `json[type]` instead of
`json["type"]`), which raises `KeyError` first.  Evaluated at the
failing input `{"type": "unknown"}`. -/
theorem selection_item_unknown_kind_raises_key_error :
    EventsPy._selection_item_from_json (Json.obj [("type", Json.str "unknown")])
      = Except.error PyError.keyErrorBuiltinType := rfl

/-- C3: `postprocess` on a bytes value returns the bytes unchanged when
the component was constructed with `streaming=True`; with
`streaming=False` it saves the bytes to the framework cache as an
`"rrd"` file and returns a `RerunData` whose root is the single
`FileData` pointing at the cached file. -/
theorem rerun_postprocess_bytes (env : Env) (cache : String) (b : List Nat) :
    (Rerun.mk true cache).postprocess env (PValue.bytes b) = Except.ok (PostResult.stream b)
    ∧ (Rerun.mk false cache).postprocess env (PValue.bytes b)
        = Except.ok (PostResult.data
            { root := [FileEntry.file
                { path := env.saveBytesToCache b "rrd" cache
                  orig_name := Option.none, size := Option.none }] }) :=
  ⟨rfl, rfl⟩

/-- C6: `TimeUpdate.__init__` stores the payload itself unchanged as
`self.time`, with no extraction, conversion or validation. -/
theorem time_update_stores_payload :
    ∀ (data : Json), (TimeUpdate.fromData data).time = data :=
  fun _ => rfl

/-- C7: in the demo, `streaming_repeated_blur` raises
`gr.Error("Must provide an image to blur.")` before yielding any stream
chunk exactly when its image argument is `None`; on a non-`None` image
it never raises that error and produces the stream trace. -/
theorem streaming_repeated_blur_requires_image {Img : Type}
    (gaussianBlur : Img → Img) (img : Option Img) :
    (img = Option.none →
      streaming_repeated_blur gaussianBlur img
        = Except.error { message := "Must provide an image to blur." })
    ∧ (∀ i, img = Option.some i →
        ∃ evs, streaming_repeated_blur gaussianBlur img = Except.ok evs) := by
  constructor
  · intro h
    subst h
    rfl
  · intro i h
    subst h
    exact ⟨_, rfl⟩

/-- Witness for C7: the theorem applied at a `None` image and at a
concrete image. -/
theorem streaming_repeated_blur_requires_image_witness :
    streaming_repeated_blur (fun n : Nat => n) Option.none
      = Except.error { message := "Must provide an image to blur." }
    ∧ ∃ evs, streaming_repeated_blur (fun n : Nat => n) (Option.some 5) = Except.ok evs :=
  ⟨(streaming_repeated_blur_requires_image (fun n : Nat => n) Option.none).1 rfl,
   (streaming_repeated_blur_requires_image (fun n : Nat => n) (Option.some 5)).2 5 rfl⟩

/-- C8: `postprocess` called with `None` returns `RerunData(root=[])`,
an empty source list, never `None`. -/
theorem rerun_postprocess_none (self : Rerun) (env : Env) :
    self.postprocess env PValue.none = Except.ok (PostResult.data { root := [] }) :=
  rfl

/-- C9: the copy of `_selection_item_from_json` in `events.py` and the
duplicate copy in `rerun.py` are extensionally equal: on every JSON
input they return selection items with identical kind and field values,
or fail with the same error. -/
theorem selection_item_from_json_copies_agree :
    ∀ (json : Json),
      EventsPy._selection_item_from_json json = RerunPy._selection_item_from_json json :=
  fun _ => rfl

/-- C2: for a `Path`, a non-URL string, or a list of `Path`s and
strings each of whose non-URL entries names an existing file,
`postprocess` returns a `RerunData` whose root has exactly one entry per
input element in order: a string starting with `"http://"` or
`"https://"` is kept unchanged as a URL entry, and every other element
becomes a `FileData` with path `str(file)`, orig_name
`Path(file).name`, and size that file's size. -/
theorem rerun_postprocess_files (self : Rerun) (env : Env) (value : PValue)
    (xs : List PathOrStr) (hw : wrapValue value = Option.some xs)
    (hfs : ∀ f ∈ xs, is_url f = false → (env.fs f.asStr).isSome) :
    self.postprocess env value
      = Except.ok (PostResult.data
          { root := xs.map (fun f =>
              if is_url f then FileEntry.url f.asStr
              else FileEntry.file
                { path := f.asStr
                  orig_name := Option.some (pathName f.asStr)
                  size := env.fs f.asStr }) }) := by
  cases value with
  | none => simp [wrapValue] at hw
  | bytes b => simp [wrapValue] at hw
  | single f =>
      obtain rfl : [f] = xs := by simpa [wrapValue] using hw
      simp only [Rerun.postprocess]
      rw [mapM_postprocessEntry env [f] hfs]
      rfl
  | list l =>
      obtain rfl : l = xs := by simpa [wrapValue] using hw
      simp only [Rerun.postprocess]
      rw [mapM_postprocessEntry env l hfs]
      rfl

/-- Witness for C2: the theorem applied to the concrete list
`[Path("/tmp/dir/a.rrd"), "https://app.rerun.io/r.rrd", "data/b.rrd"]`
against a filesystem on which both files exist. -/
theorem rerun_postprocess_files_witness :
    (Rerun.mk false "/cache").postprocess
        { fs := fun _ => Option.some 9, saveBytesToCache := fun _ _ _ => "unused" }
        (PValue.list [PathOrStr.path "/tmp/dir/a.rrd",
                      PathOrStr.str "https://app.rerun.io/r.rrd",
                      PathOrStr.str "data/b.rrd"])
      = Except.ok (PostResult.data
          { root :=
              [FileEntry.file { path := "/tmp/dir/a.rrd", orig_name := Option.some "a.rrd",
                                size := Option.some 9 },
               FileEntry.url "https://app.rerun.io/r.rrd",
               FileEntry.file { path := "data/b.rrd", orig_name := Option.some "b.rrd",
                                size := Option.some 9 }] }) :=
  rerun_postprocess_files (Rerun.mk false "/cache")
    { fs := fun _ => Option.some 9, saveBytesToCache := fun _ _ _ => "unused" }
    (PValue.list [PathOrStr.path "/tmp/dir/a.rrd",
                  PathOrStr.str "https://app.rerun.io/r.rrd",
                  PathOrStr.str "data/b.rrd"])
    [PathOrStr.path "/tmp/dir/a.rrd",
     PathOrStr.str "https://app.rerun.io/r.rrd",
     PathOrStr.str "data/b.rrd"]
    rfl (fun _ _ _ => rfl)

/-- C4: on a list of well-formed selection-item objects,
`SelectionChange.__init__` sets `self.items` to the result of applying
`_selection_item_from_json` to each element, preserving order and
length; on an entity item, `instance_id`, `view_name` and `position`
default to `None` when absent, and a present position becomes the
3-tuple of its first three components. -/
theorem selection_change_items_spec :
    (∀ (data : List Json),
        (∀ j ∈ data, ∃ it, EventsPy._selection_item_from_json j = Except.ok it) →
        ∃ items, SelectionChange.items data = Except.ok items
          ∧ items.length = data.length
          ∧ ∀ (i : Nat) (h1 : i < data.length) (h2 : i < items.length),
              EventsPy._selection_item_from_json (data.get ⟨i, h1⟩)
                = Except.ok (items.get ⟨i, h2⟩))
    ∧ (∀ (fields : List (String × Json)) (ep : Json),
        fields.lookup "type" = Option.some (Json.str "entity") →
        fields.lookup "entity_path" = Option.some ep →
        (((fields.lookup "position").getD Json.null = Json.null →
          EventsPy._selection_item_from_json (Json.obj fields)
            = Except.ok (SelectionItem.entity
                { entity_path := ep
                  instance_id := (fields.lookup "instance_id").getD Json.null
                  view_name := (fields.lookup "view_name").getD Json.null
                  position := Option.none }))
        ∧ (∀ (p0 p1 p2 : Json) (rest : List Json),
            fields.lookup "position" = Option.some (Json.arr (p0 :: p1 :: p2 :: rest)) →
            EventsPy._selection_item_from_json (Json.obj fields)
              = Except.ok (SelectionItem.entity
                  { entity_path := ep
                    instance_id := (fields.lookup "instance_id").getD Json.null
                    view_name := (fields.lookup "view_name").getD Json.null
                    position := Option.some (p0, p1, p2) })))) := by
  constructor
  · intro data h
    exact mapM_ok_of_forall_ok EventsPy._selection_item_from_json data h
  · intro fields ep h1 h2
    constructor
    · intro hpos
      simp [EventsPy._selection_item_from_json, pySubscriptStr, jsonGet, jsonEqStr,
            positionTuple, h1, h2, hpos, Bind.bind, Except.bind, pure, Except.pure]
    · intro p0 p1 p2 rest hpos
      simp [EventsPy._selection_item_from_json, pySubscriptStr, jsonGet, jsonEqStr,
            positionTuple, h1, h2, hpos, pyIndex, Bind.bind, Except.bind, pure, Except.pure]

/-- C5: `TimelineChange.__init__` on a payload containing both a
`"timeline"` and a `"time"` key sets `self.timeline` to
`data["timeline"]` and `self.time` to `data["time"]`; a payload missing
either key fails with a `KeyError` for that key. -/
theorem timeline_change_spec (fields : List (String × Json)) :
    (∀ tl t, fields.lookup "timeline" = Option.some tl →
        fields.lookup "time" = Option.some t →
        TimelineChange.fromData (Json.obj fields) = Except.ok { timeline := tl, time := t })
    ∧ (fields.lookup "timeline" = Option.none →
        TimelineChange.fromData (Json.obj fields)
          = Except.error (PyError.keyError "timeline"))
    ∧ (∀ tl, fields.lookup "timeline" = Option.some tl →
        fields.lookup "time" = Option.none →
        TimelineChange.fromData (Json.obj fields)
          = Except.error (PyError.keyError "time")) := by
  refine ⟨?_, ?_, ?_⟩
  · intro tl t h1 h2
    simp [TimelineChange.fromData, pySubscriptStr, h1, h2,
          Bind.bind, Except.bind, pure, Except.pure]
  · intro h1
    simp [TimelineChange.fromData, pySubscriptStr, h1, Bind.bind, Except.bind]
  · intro tl h1 h2
    simp [TimelineChange.fromData, pySubscriptStr, h1, h2, Bind.bind, Except.bind]

/-- Witness for C5: the theorem applied to a payload with both keys, one
missing `"timeline"`, and one missing `"time"`. -/
theorem timeline_change_spec_witness :
    TimelineChange.fromData (Json.obj [("timeline", Json.str "iteration"), ("time", Json.num 7)])
      = Except.ok { timeline := Json.str "iteration", time := Json.num 7 }
    ∧ TimelineChange.fromData (Json.obj [("time", Json.num 7)])
      = Except.error (PyError.keyError "timeline")
    ∧ TimelineChange.fromData (Json.obj [("timeline", Json.str "iteration")])
      = Except.error (PyError.keyError "time") :=
  ⟨(timeline_change_spec _).1 _ _ rfl rfl,
   (timeline_change_spec _).2.1 rfl,
   (timeline_change_spec _).2.2 _ rfl rfl⟩

/-- Witness for C4: the theorem applied to a concrete one-item selection
list, and its entity clauses applied to entity objects without and with
a position. -/
theorem selection_change_items_spec_witness :
    (∃ items,
      SelectionChange.items
          [Json.obj [("type", Json.str "view"), ("view_id", Json.str "v1"),
                     ("view_name", Json.str "2D")]]
        = Except.ok items
      ∧ items.length = 1
      ∧ ∀ (i : Nat) (h1 : i < 1) (h2 : i < items.length),
          EventsPy._selection_item_from_json
              (List.get [Json.obj [("type", Json.str "view"), ("view_id", Json.str "v1"),
                                   ("view_name", Json.str "2D")]] ⟨i, h1⟩)
            = Except.ok (items.get ⟨i, h2⟩))
    ∧ EventsPy._selection_item_from_json
          (Json.obj [("type", Json.str "entity"), ("entity_path", Json.str "image/original")])
        = Except.ok (SelectionItem.entity
            { entity_path := Json.str "image/original", instance_id := Json.null
              view_name := Json.null, position := Option.none })
    ∧ EventsPy._selection_item_from_json
          (Json.obj [("type", Json.str "entity"), ("entity_path", Json.str "image/original"),
                     ("position", Json.arr [Json.num 3, Json.num 4, Json.num 0, Json.num 9])])
        = Except.ok (SelectionItem.entity
            { entity_path := Json.str "image/original", instance_id := Json.null
              view_name := Json.null
              position := Option.some (Json.num 3, Json.num 4, Json.num 0) }) :=
  ⟨selection_change_items_spec.1 _
      (by
        intro j hj
        simp only [List.mem_singleton] at hj
        subst hj
        exact ⟨_, rfl⟩),
   (selection_change_items_spec.2
      [("type", Json.str "entity"), ("entity_path", Json.str "image/original")]
      (Json.str "image/original") rfl rfl).1 rfl,
   (selection_change_items_spec.2
      [("type", Json.str "entity"), ("entity_path", Json.str "image/original"),
       ("position", Json.arr [Json.num 3, Json.num 4, Json.num 0, Json.num 9])]
      (Json.str "image/original") rfl rfl).2 _ _ _ _ rfl⟩

/-- C10: every selection item produced by `_selection_item_from_json`
has a `kind` equal to the `"type"` field of the JSON it was parsed
from; the `kind` properties themselves are the constants `"entity"`,
`"view"` and `"container"` regardless of the other field values. -/
theorem selection_item_kind_matches_type_field :
    (∀ e : EntitySelection, e.kind = "entity")
    ∧ (∀ v : ViewSelection, v.kind = "view")
    ∧ (∀ c : ContainerSelection, c.kind = "container")
    ∧ (∀ (json : Json) (item : SelectionItem),
        EventsPy._selection_item_from_json json = Except.ok item →
        jsonGet json "type" = Json.str item.kind) := by
  refine ⟨fun _ => rfl, fun _ => rfl, fun _ => rfl, ?_⟩
  intro json item h
  unfold EventsPy._selection_item_from_json at h
  obtain ⟨ty, hty, h⟩ := except_bind_ok h
  rw [jsonGet_eq_of_subscript hty]
  by_cases h1 : jsonEqStr ty "entity" = true
  · rw [if_pos h1] at h
    obtain ⟨ep, hep, h⟩ := except_bind_ok h
    obtain ⟨pos, hpos, h⟩ := except_bind_ok h
    have hit : item = SelectionItem.entity
        { entity_path := ep, instance_id := jsonGet json "instance_id"
          view_name := jsonGet json "view_name", position := pos } := by
      simpa [pure, Except.pure] using h.symm
    subst hit
    rw [eq_str_of_jsonEqStr h1]
    rfl
  · rw [if_neg h1] at h
    by_cases h2 : jsonEqStr ty "view" = true
    · rw [if_pos h2] at h
      obtain ⟨vid, hvid, h⟩ := except_bind_ok h
      obtain ⟨vn, hvn, h⟩ := except_bind_ok h
      have hit : item = SelectionItem.view { view_id := vid, view_name := vn } := by
        simpa [pure, Except.pure] using h.symm
      subst hit
      rw [eq_str_of_jsonEqStr h2]
      rfl
    · rw [if_neg h2] at h
      by_cases h3 : jsonEqStr ty "container" = true
      · rw [if_pos h3] at h
        obtain ⟨cid, hcid, h⟩ := except_bind_ok h
        obtain ⟨cn, hcn, h⟩ := except_bind_ok h
        have hit : item = SelectionItem.container
            { container_id := cid, container_name := cn } := by
          simpa [pure, Except.pure] using h.symm
        subst hit
        rw [eq_str_of_jsonEqStr h3]
        rfl
      · rw [if_neg h3] at h
        exact Except.noConfusion h

/-- Witness for C10: the theorem applied to a concrete container item. -/
theorem selection_item_kind_matches_type_field_witness :
    jsonGet (Json.obj [("type", Json.str "container"), ("container_id", Json.str "c1"),
                       ("container_name", Json.str "root")]) "type"
      = Json.str (SelectionItem.kind (SelectionItem.container
          { container_id := Json.str "c1", container_name := Json.str "root" })) :=
  selection_item_kind_matches_type_field.2.2.2 _ _ rfl

/-!  Concrete sanity evaluations of the embedded definitions. -/

example : EventsPy._selection_item_from_json
    (Json.obj [("type", Json.str "view"), ("view_id", Json.str "v1"), ("view_name", Json.str "n")])
    = Except.ok (SelectionItem.view { view_id := Json.str "v1", view_name := Json.str "n" }) := rfl

example : EventsPy._selection_item_from_json (Json.obj [("type", Json.str "unknown")])
    = Except.error PyError.keyErrorBuiltinType := rfl

example : EventsPy._selection_item_from_json
    (Json.obj [("type", Json.str "entity"), ("entity_path", Json.str "p"),
               ("position", Json.arr [Json.num 1, Json.num 2, Json.num 3, Json.num 4])])
    = Except.ok (SelectionItem.entity
      { entity_path := Json.str "p", instance_id := Json.null, view_name := Json.null,
        position := Option.some (Json.num 1, Json.num 2, Json.num 3) }) := rfl

example :
    (Rerun.mk false "/cache").postprocess
      { fs := fun p => if p == "/tmp/a.rrd" then Option.some 42 else Option.none
        saveBytesToCache := fun _ _ _ => "unused" }
      (PValue.list [PathOrStr.path "/tmp/a.rrd", PathOrStr.str "https://x.io/r.rrd"])
    = Except.ok (PostResult.data { root :=
        [FileEntry.file { path := "/tmp/a.rrd", orig_name := Option.some "a.rrd", size := Option.some 42 },
         FileEntry.url "https://x.io/r.rrd"] }) := rfl
